import Mathlib

/-!
Verification of the aws-build container build orchestrator
(`aws-build-lib/src/lib.rs`, plus the older variant `src/lib.rs`).

The development shallowly embeds the orchestrator: pure helpers
(`make_unique_name`, `make_zip_name`, `BuildMode`) become Lean functions;
the SHA-256 digest used for artifact naming is implemented from FIPS 180-4
as the `sha2` crate does; stateful code (`Builder::run`, `Container::run`,
`ensure_dir_exists`, `ResetPodmanPermissions`) becomes explicit state
passing over a small world model that records every external-process
invocation in a trace.
-/

namespace AwsBuild

/-! ## SHA-256 (the `sha2::Sha256::digest` collaborator), FIPS 180-4 -/

namespace Sha256

/-- 2^32, the word modulus. -/
def M32 : Nat := 4294967296

/-- Right-rotate a 32-bit word by `n`. -/
def rotr (n x : Nat) : Nat := ((x >>> n) ||| (x <<< (32 - n))) % M32

/-- `Ch(e,f,g)`, written in its standard multiplexer form
`g ⊕ (e ∧ (f ⊕ g))`, bitwise equal to `(e ∧ f) ⊕ (¬e ∧ g)`. -/
def ch (e f g : Nat) : Nat := g ^^^ (e &&& (f ^^^ g))

/-- `Maj(a,b,c)`, written in its standard select form
`(a ∧ b) ∨ (c ∧ (a ⊕ b))`, bitwise equal to
`(a ∧ b) ⊕ (a ∧ c) ⊕ (b ∧ c)`. -/
def maj (a b c : Nat) : Nat := (a &&& b) ||| (c &&& (a ^^^ b))

def bsig0 (x : Nat) : Nat := rotr 2 x ^^^ rotr 13 x ^^^ rotr 22 x

def bsig1 (x : Nat) : Nat := rotr 6 x ^^^ rotr 11 x ^^^ rotr 25 x

def ssig0 (x : Nat) : Nat := rotr 7 x ^^^ rotr 18 x ^^^ (x >>> 3)

def ssig1 (x : Nat) : Nat := rotr 17 x ^^^ rotr 19 x ^^^ (x >>> 10)

/-- The 64 round constants of FIPS 180-4 §4.2.2, in decimal. -/
def K : List Nat :=
  [1116352408, 1899447441, 3049323471, 3921009573,
   961987163, 1508970993, 2453635748, 2870763221,
   3624381080, 310598401, 607225278, 1426881987,
   1925078388, 2162078206, 2614888103, 3248222580,
   3835390401, 4022224774, 264347078, 604807628,
   770255983, 1249150122, 1555081692, 1996064986,
   2554220882, 2821834349, 2952996808, 3210313671,
   3336571891, 3584528711, 113926993, 338241895,
   666307205, 773529912, 1294757372, 1396182291,
   1695183700, 1986661051, 2177026350, 2456956037,
   2730485921, 2820302411, 3259730800, 3345764771,
   3516065817, 3600352804, 4094571909, 275423344,
   430227734, 506948616, 659060556, 883997877,
   958139571, 1322822218, 1537002063, 1747873779,
   1955562222, 2024104815, 2227730452, 2361852424,
   2428436474, 2756734187, 3204031479, 3329325298]

/-- The working state: eight 32-bit words. -/
structure Hash8 where
  a : Nat
  b : Nat
  c : Nat
  d : Nat
  e : Nat
  f : Nat
  g : Nat
  h : Nat
deriving DecidableEq, Repr

/-- Initial hash state of FIPS 180-4 §5.3.3, in decimal. -/
def initH : Hash8 :=
  ⟨1779033703, 3144134277, 1013904242, 2773480762,
   1359893119, 2600822924, 528734635, 1541459225⟩

/-- One compression round with round constant `k` and schedule word `w`. -/
def round (s : Hash8) (kw : Nat × Nat) : Hash8 :=
  let t1 := (s.h + bsig1 s.e + ch s.e s.f s.g + kw.1 + kw.2) % M32
  let t2 := (bsig0 s.a + maj s.a s.b s.c) % M32
  ⟨(t1 + t2) % M32, s.a, s.b, s.c, (s.d + t1) % M32, s.e, s.f, s.g⟩

/-- Extend the reversed word list by `n` schedule words. -/
def extendRev (rws : List Nat) : Nat → List Nat
  | 0 => rws
  | n + 1 =>
    let w := (ssig1 (rws.getD 1 0) + rws.getD 6 0
      + ssig0 (rws.getD 14 0) + rws.getD 15 0) % M32
    extendRev (w :: rws) n

/-- The 64-word message schedule of a 16-word block. -/
def schedule (block : List Nat) : List Nat :=
  (extendRev block.reverse 48).reverse

/-- Compress one 16-word block into the running hash state. -/
def compress (h0 : Hash8) (block : List Nat) : Hash8 :=
  let s := (K.zip (schedule block)).foldl round h0
  ⟨(h0.a + s.a) % M32, (h0.b + s.b) % M32, (h0.c + s.c) % M32,
   (h0.d + s.d) % M32, (h0.e + s.e) % M32, (h0.f + s.f) % M32,
   (h0.g + s.g) % M32, (h0.h + s.h) % M32⟩

/-- Big-endian bytes of a 32-bit word. -/
def be4 (w : Nat) : List Nat :=
  [(w >>> 24) % 256, (w >>> 16) % 256, (w >>> 8) % 256, w % 256]

/-- Big-endian bytes of a 64-bit length field. -/
def be8 (n : Nat) : List Nat :=
  [(n >>> 56) % 256, (n >>> 48) % 256, (n >>> 40) % 256, (n >>> 32) % 256,
   (n >>> 24) % 256, (n >>> 16) % 256, (n >>> 8) % 256, n % 256]

/-- Pad a byte message per FIPS 180-4: append 0x80, zeros to 56 mod 64,
then the bit length as eight big-endian bytes. -/
def padMsg (msg : List Nat) : List Nat :=
  let L := msg.length
  let k := (64 + 56 - (L + 1) % 64) % 64
  msg ++ 0x80 :: List.replicate k 0 ++ be8 (8 * L)

/-- Group bytes four at a time into big-endian 32-bit words. -/
def wordsOf : List Nat → List Nat
  | a :: b :: c :: d :: rest =>
    (a * 16777216 + b * 65536 + c * 256 + d) :: wordsOf rest
  | _ => []

/-- Split into 64-byte blocks (fuel-structured so the kernel reduces it;
`fuel = l.length` always suffices since each step consumes 64 bytes). -/
def chunk64Go : Nat → List Nat → List (List Nat)
  | _, [] => []
  | 0, l => [l]
  | fuel + 1, a :: rest => (a :: rest.take 63) :: chunk64Go fuel (rest.drop 63)

/-- Split into 64-byte blocks. -/
def chunk64 (l : List Nat) : List (List Nat) := chunk64Go l.length l

/-- SHA-256 digest of a byte string, as 32 bytes. -/
def digest (msg : List Nat) : List Nat :=
  let blocks := (chunk64 (padMsg msg)).map wordsOf
  let h := blocks.foldl compress initH
  (([h.a, h.b, h.c, h.d, h.e, h.f, h.g, h.h]).map be4).flatten

end Sha256

/-- Lowercase hex rendering of a byte. -/
def byteHex (b : Nat) : List Char :=
  [Nat.digitChar (b / 16), Nat.digitChar (b % 16)]

/-- Lowercase hex rendering of a byte string, truncated to `n` characters,
as Rust's `"{:.nx}"` formatting of a digest does. -/
def hexTrunc (n : Nat) (bs : List Nat) : String :=
  String.mk (((bs.map byteHex).flatten).take n)

/-- UTF-8 bytes of an ASCII string (all inputs used here are ASCII). -/
def strBytes (s : String) : List Nat := s.data.map Char.toNat

/-! ## Results, build mode, dates and artifact names -/

/-- Fallible results (`anyhow::Result` in the source). -/
inductive Res (ε α : Type) where
  | ok (a : α)
  | err (e : ε)
deriving DecidableEq, Repr

/-- Error kinds per the error-handling design: configuration errors,
external-process failures, and filesystem failures. Each carries the
source's message. -/
inductive BuildErr where
  | config (msg : String)
  | external (msg : String)
  | fsErr (msg : String)
deriving DecidableEq, Repr

/-- Whether to build for Amazon Linux 2 or AWS Lambda. -/
inductive BuildMode where
  | AmazonLinux2
  | Lambda
deriving DecidableEq, Repr

/-- `BuildMode::name`. -/
def BuildMode.name : BuildMode → String
  | .AmazonLinux2 => "al2"
  | .Lambda => "lambda"

/-- `impl FromStr for BuildMode`: `"al2"` and `"lambda"` parse, anything
else errors naming the invalid mode. -/
def BuildMode.from_str (s : String) : Res String BuildMode :=
  if s = "al2" then .ok .AmazonLinux2
  else if s = "lambda" then .ok .Lambda
  else .err ("invalid mode " ++ s)

/-- A calendar date as the naming code reads it: year (`i32`), month and day
as numbers (`u8::from(when.month())`, `when.day()`). -/
structure Date where
  year : Int
  month : Nat
  day : Nat
deriving DecidableEq, Repr

/-- Rust's `{:02}` formatting: zero-pad to width two. -/
def pad2 (n : Nat) : String :=
  if n < 10 then "0" ++ toString n else toString n

/-- `make_unique_name` (aws-build-lib): `"{}-{}-{}{:02}{:02}-{:.16x}"` over
mode name, binary name, date and the SHA-256 digest of the contents. -/
def make_unique_name (mode : BuildMode) (name : String) (contents : List Nat)
    (when : Date) : String :=
  mode.name ++ "-" ++ name ++ "-" ++ toString when.year ++ pad2 when.month
    ++ pad2 when.day ++ "-" ++ hexTrunc 16 (Sha256.digest contents)

/-- `make_zip_name` (the older `src/lib.rs` variant):
`"{}-{}{:02}{:02}-{:.16x}.zip"` with no mode prefix. -/
def make_zip_name (name : String) (contents : List Nat) (when : Date) : String :=
  name ++ "-" ++ toString when.year ++ pad2 when.month ++ pad2 when.day
    ++ "-" ++ hexTrunc 16 (Sha256.digest contents) ++ ".zip"

/-! ## Paths -/

/-- One path component of an `OsString`: valid UTF-8 text or raw bytes that
the UTF-8 argument channel cannot carry. -/
inductive OsStr where
  | utf8 (s : String)
  | raw (bytes : List Nat)
deriving DecidableEq, Repr

/-- A filesystem path as a component list (`PathBuf`). -/
structure Path where
  components : List OsStr
deriving DecidableEq, Repr

/-- `Path::join` with a UTF-8 component. -/
def Path.join (p : Path) (s : String) : Path :=
  ⟨p.components ++ [.utf8 s]⟩

/-- A single-component path literal. -/
def pstr (s : String) : Path := ⟨[.utf8 s]⟩

/-- `Path::to_str`: the path as UTF-8 text, or `none` when some component
is not representable. -/
def Path.render (p : Path) : Option String :=
  p.components.foldl
    (fun acc c =>
      match acc, c with
      | some s, .utf8 t => some (if s = "" then t else s ++ "/" ++ t)
      | _, _ => none)
    (some "")

/-- `Path::display`: total, lossy rendering used in error messages. -/
def Path.display (p : Path) : String :=
  p.components.foldl
    (fun acc c =>
      let t := match c with
        | .utf8 s => s
        | .raw _ => "�"
      if acc = "" then t else acc ++ "/" ++ t)
    ""

/-- `Path::strip_prefix` on component lists: the remainder of the second
list after the first, or `none` when the first is not a prefix. -/
def strip_pre : List OsStr → List OsStr → Option (List OsStr)
  | [], p => some p
  | _, [] => none
  | r :: rs, q :: qs => if r = q then strip_pre rs qs else none

/-! ## Filesystem model and `ensure_dir_exists` -/

/-- What sits at a path. -/
inductive FsEntry where
  | dir
  | file
  | absent
deriving DecidableEq, Repr

/-- The host filesystem as the directory-creation code sees it: an entry
map plus a permission oracle for `create_dir`. -/
structure Fs where
  entries : Path → FsEntry
  createAllowed : Path → Bool

/-- Result of `fs::create_dir`. -/
inductive CreateDirResult where
  | ok
  | alreadyExists
  | denied
deriving DecidableEq, Repr

/-- `fs::create_dir`: fails with `AlreadyExists` when the path is occupied,
fails when creation is denied, otherwise creates the directory. -/
def Fs.create_dir (fs : Fs) (p : Path) : Fs × CreateDirResult :=
  match fs.entries p with
  | .absent =>
    if fs.createAllowed p then
      ({ fs with entries := fun q => if q = p then .dir else fs.entries q },
       .ok)
    else (fs, .denied)
  | _ => (fs, .alreadyExists)

/-- `Path::is_dir`. -/
def Fs.is_dir (fs : Fs) (p : Path) : Bool :=
  match fs.entries p with
  | .dir => true
  | _ => false

/-- `ensure_dir_exists`: attempt `create_dir` ignoring its result, then
fail unless the path is a directory. -/
def ensure_dir_exists (fs : Fs) (p : Path) : Fs × Res BuildErr Unit :=
  let step := fs.create_dir p
  if step.1.is_dir p then (step.1, .ok ())
  else (step.1, .err (.fsErr ("failed to create directory " ++ p.display)))

/-! ## Container runtime interface -/

/-- The only user identities the orchestrator constructs
(`UserAndGroup::current()` and `UserAndGroup::root()`). -/
inductive UserAndGroup where
  | current
  | root
deriving DecidableEq, Repr

/-- The container launcher; only rootlessness is observable here
(`Launcher::is_podman`). -/
structure Launcher where
  is_podman : Bool
deriving DecidableEq, Repr

/-- Relabel files before bind-mounting. -/
inductive Relabel where
  | Shared
  | Unshared
deriving DecidableEq, Repr

/-- A bind mount: source, destination, writability and mount options. -/
structure Volume where
  src : Path
  dst : Path
  read_write : Bool
  options : List String
deriving DecidableEq, Repr

/-- Options passed to the runtime's `run` command. -/
structure RunOpt where
  remove : Bool
  env : List (String × String)
  init : Bool
  user : Option UserAndGroup
  volumes : List Volume
  image : String
deriving DecidableEq, Repr

/-- Options passed to the runtime's `build` command. -/
structure BuildOpt where
  build_args : List (String × String)
  tag : Option String
deriving DecidableEq, Repr

/-- One external-process invocation, in invocation order. -/
inductive Event where
  | imageBuild (opt : BuildOpt)
  | containerRun (opt : RunOpt)
  | cargoMetadata (dir : Path)
  | chown (user : UserAndGroup) (dir : Path)
  | stripCmd (bin : Path)
deriving DecidableEq, Repr

def Event.isImageBuild : Event → Bool
  | .imageBuild _ => true
  | _ => false

def Event.isContainerRun : Event → Bool
  | .containerRun _ => true
  | _ => false

def Event.isChownOf (u : UserAndGroup) : Event → Bool
  | .chown v _ => v == u
  | _ => false

/-! ## Artifact writes and the latest pointer -/

inductive CompressionMethod where
  | deflated
deriving DecidableEq, Repr

/-- One entry of a written zip archive. -/
structure ZipEntry where
  entryName : String
  unix_permissions : Nat
  method : CompressionMethod
  data : List Nat
deriving DecidableEq, Repr

/-- An artifact write performed by the packager. -/
inductive FileOutput where
  | copied (src dst : Path) (data : List Nat)
  | zipped (path : Path) (entries : List ZipEntry) (finalized : Bool)
deriving DecidableEq, Repr

/-- What occupies the `latest-<mode>` filesystem slot. -/
inductive SlotEntry where
  | symlinkTo (target : Path)
  | otherFile
deriving DecidableEq, Repr

/-- Output returned from `Builder::run` on success. -/
structure BuilderOutput where
  real : Path
  symlink : Path
deriving DecidableEq, Repr

/-- The world model: outcomes of every external collaborator (filesystem
calls, process exit statuses, cargo metadata, today's date). -/
structure World where
  canon : Path → Option Path
  fs0 : Fs
  imageBuildOk : Bool
  metadata : Option (List String)
  containerRunOk : Bool
  chownOk : UserAndGroup → Bool
  stripOk : Bool
  rawContents : Option (List Nat)
  strippedContents : Option (List Nat)
  today : Date
  copyOk : Bool
  zipOk : Bool
  latest0 : Option SlotEntry
  removeOk : Bool
  symlinkOk : Bool

/-- Everything observable about one `Builder::run`: the result, the
external processes invoked in order, the artifact writes, and the final
state of the `latest-<mode>` slot. -/
structure Outcome where
  result : Res BuildErr BuilderOutput
  events : List Event
  writes : List FileOutput
  latest : Option SlotEntry
deriving DecidableEq, Repr

/-! ## Permission reconciliation (`podman unshare chown`) -/

/-- `set_podman_permissions`: run `podman unshare chown --recursive`,
recording the invocation; success per the world's exit status. -/
def set_podman_permissions (w : World) (user : UserAndGroup) (dir : Path) :
    Res BuildErr Unit × List Event :=
  (if w.chownOk user then .ok ()
   else .err (.external "podman unshare chown failed"),
   [.chown user dir])

/-- The drop guard that re-owns the output directory on every exit path. -/
structure ResetPodmanPermissions where
  user : UserAndGroup
  dir : Path
  done : Bool
deriving DecidableEq, Repr

/-- `ResetPodmanPermissions::new`. -/
def ResetPodmanPermissions.new (user : UserAndGroup) (dir : Path) :
    ResetPodmanPermissions :=
  { user := user, dir := dir, done := false }

/-- `reset_permissions`: if not already done, run the chown and mark done
on success; errors propagate and leave `done` unset. -/
def ResetPodmanPermissions.reset_permissions (r : ResetPodmanPermissions)
    (w : World) : ResetPodmanPermissions × Res BuildErr Unit × List Event :=
  if r.done then (r, .ok (), [])
  else
    let s := set_podman_permissions w r.user r.dir
    match s.1 with
    | .ok () => ({ r with done := true }, .ok (), s.2)
    | .err e => (r, .err e, s.2)

/-- `Drop for ResetPodmanPermissions`: run `reset_permissions`, reporting
but swallowing any error (it is logged, never propagated). -/
def ResetPodmanPermissions.drop (r : ResetPodmanPermissions) (w : World) :
    List Event :=
  (r.reset_permissions w).2.2

/-! ## `Container::run` -/

/-- The per-run container configuration. -/
structure Container where
  mode : BuildMode
  bin : String
  launcher : Launcher
  output_dir : Path
  image_tag : String
  relabel : Option Relabel
  code_root : Path
deriving Repr

/-- Mount options from the relabel policy: `z` for shared, `Z` for
unshared, nothing otherwise. -/
def mount_options : Option Relabel → List String
  | some .Shared => ["z"]
  | some .Unshared => ["Z"]
  | none => []

/-- The `RunOpt` that `Container::run` passes to the launcher. -/
def runOptOf (c : Container) (registry_dir git_dir : Path) : RunOpt :=
  { remove := true,
    env := [("TARGET_DIR", "/code/target/" ++ c.mode.name),
            ("BIN_TARGET", c.bin)],
    init := true,
    user := some .current,
    volumes := [
      ⟨c.code_root, pstr "/code", false, mount_options c.relabel⟩,
      ⟨registry_dir, pstr "/cargo/registry", true, mount_options c.relabel⟩,
      ⟨git_dir, pstr "/cargo/git", true, mount_options c.relabel⟩,
      ⟨c.output_dir, pstr "/code/target", true, mount_options c.relabel⟩],
    image := c.image_tag }

/-- `Container::run`: create the two cache directories, pre-own the output
directory for podman with a reset guard, invoke the runtime's `run`, reset
permissions (explicitly on success, via drop on failure), and return the
path of the built binary. -/
def Container.run (c : Container) (w : World) (fs : Fs) :
    Fs × List Event × Res BuildErr Path :=
  let mode_name := c.mode.name
  let registry_dir := c.output_dir.join (mode_name ++ "-cargo-registry")
  let step1 := ensure_dir_exists fs registry_dir
  match step1.2 with
  | .err e => (step1.1, [], .err e)
  | .ok () =>
  let git_dir := c.output_dir.join (mode_name ++ "-cargo-git")
  let step2 := ensure_dir_exists step1.1 git_dir
  match step2.2 with
  | .err e => (step2.1, [], .err e)
  | .ok () =>
  let pre : Res BuildErr Unit × List Event × Option ResetPodmanPermissions :=
    if c.launcher.is_podman then
      let s := set_podman_permissions w .current c.output_dir
      (s.1, s.2, some (ResetPodmanPermissions.new .root c.output_dir))
    else (.ok (), [], none)
  match pre.1 with
  | .err e => (step2.1, pre.2.1, .err e)
  | .ok () =>
  let evs := pre.2.1 ++ [.containerRun (runOptOf c registry_dir git_dir)]
  let bin_path := ((c.output_dir.join mode_name).join "release").join c.bin
  if w.containerRunOk then
    match pre.2.2 with
    | some r =>
      let rr := r.reset_permissions w
      match rr.2.1 with
      | .ok () => (step2.1, evs ++ rr.2.2, .ok bin_path)
      | .err e => (step2.1, evs ++ rr.2.2 ++ rr.1.drop w, .err e)
    | none => (step2.1, evs, .ok bin_path)
  else
    let dropEvs :=
      match pre.2.2 with
      | some r => r.drop w
      | none => []
    (step2.1, evs ++ dropEvs, .err (.external "container run failed"))

/-! ## `Builder` and its orchestrated run -/

/-- Options for running the build. -/
structure Builder where
  rust_version : String
  mode : BuildMode
  bin : Option String
  strip : Bool
  launcher : Launcher
  code_root : Path
  project_path : Path
  packages : List String
  relabel : Option Relabel
deriving Repr

/-- The deterministic image tag: `aws-build-<mode>-<rust-version>`. -/
def image_tag (b : Builder) : String :=
  "aws-build-" ++ b.mode.name ++ "-" ++ b.rust_version

/-- The mode-selected base image (`FROM_IMAGE`). -/
def baseImage : BuildMode → String
  | .AmazonLinux2 => "docker.io/amazonlinux:2"
  | .Lambda => "docker.io/lambci/lambda:build-provided.al2"

/-- The `BuildOpt` that `build_container` passes to the launcher, given the
UTF-8 rendering of the relative project path. -/
def buildOptOf (b : Builder) (relStr : String) : BuildOpt :=
  { build_args := [
      ("FROM_IMAGE", baseImage b.mode),
      ("RUST_VERSION", b.rust_version),
      ("DEV_PKGS", String.intercalate " " b.packages),
      ("PROJECT_PATH", relStr)],
    tag := some (image_tag b) }

/-- `Builder::build_container`: fail (configuration error, before any
invocation) when the relative project path is not UTF-8, otherwise invoke
the runtime's `build` once and return the image tag. -/
def build_container (b : Builder) (w : World) (relative_project_path : Path) :
    Res BuildErr String × List Event :=
  match relative_project_path.render with
  | none => (.err (.config "project path is not utf-8"), [])
  | some relStr =>
    (if w.imageBuildOk then .ok (image_tag b)
     else .err (.external "container build failed"),
     [.imageBuild (buildOptOf b relStr)])

/-- The tail of `Builder::run` after the container produced the binary:
optional strip (hard failure), read, per-mode packaging (copy or zip), and
the `latest-<mode>` symlink update (best-effort remove, then hard-failing
create). -/
def finishBuild (b : Builder) (w : World) (target_dir output_dir : Path)
    (bin : String) (bin_path : Path) : Outcome :=
  let stripStep : Res BuildErr Unit × List Event :=
    if b.strip then
      (if w.stripOk then .ok () else .err (.external "strip failed"),
       [.stripCmd bin_path])
    else (.ok (), [])
  match stripStep.1 with
  | .err e => ⟨.err e, stripStep.2, [], w.latest0⟩
  | .ok () =>
  match (if b.strip then w.strippedContents else w.rawContents) with
  | none =>
    ⟨.err (.fsErr ("failed to read " ++ bin_path.display)), stripStep.2,
     [], w.latest0⟩
  | some bin_contents =>
  let base_unique_name := make_unique_name b.mode bin bin_contents w.today
  let packaged : Res BuildErr (Path × List FileOutput) :=
    match b.mode with
    | .AmazonLinux2 =>
      let out_path := (output_dir.join b.mode.name).join base_unique_name
      if w.copyOk then .ok (out_path, [.copied bin_path out_path bin_contents])
      else .err (.fsErr ("failed to copy to " ++ out_path.display))
    | .Lambda =>
      let zip_name := base_unique_name ++ ".zip"
      let zip_path := (output_dir.join b.mode.name).join zip_name
      if w.zipOk then
        .ok (zip_path,
          [.zipped zip_path [⟨"bootstrap", 0o755, .deflated, bin_contents⟩]
            true])
      else .err (.fsErr ("failed to write " ++ zip_path.display))
  match packaged with
  | .err e => ⟨.err e, stripStep.2, [], w.latest0⟩
  | .ok pw =>
  let symlink_path := target_dir.join ("latest-" ++ b.mode.name)
  let afterRemove : Option SlotEntry :=
    match w.latest0 with
    | none => none
    | some e0 => if w.removeOk then none else some e0
  if afterRemove.isNone && w.symlinkOk then
    ⟨.ok ⟨pw.1, symlink_path⟩, stripStep.2, pw.2, some (.symlinkTo pw.1)⟩
  else
    ⟨.err (.fsErr ("failed to create symlink " ++ symlink_path.display)),
     stripStep.2, pw.2, afterRemove⟩

/-- `Builder::run`: canonicalize both roots, require the project inside the
code root, prepare `target` and `target/aws-build`, build the image, query
the binary targets, resolve the one to build, run the container, then
finish (strip, package, symlink). -/
def Builder.run (b : Builder) (w : World) : Outcome :=
  match w.canon b.code_root with
  | none =>
    ⟨.err (.fsErr ("failed to canonicalize " ++ b.code_root.display)),
     [], [], w.latest0⟩
  | some code_root =>
  match w.canon b.project_path with
  | none =>
    ⟨.err (.fsErr ("failed to canonicalize " ++ b.project_path.display)),
     [], [], w.latest0⟩
  | some project_path =>
  match strip_pre code_root.components project_path.components with
  | none =>
    ⟨.err (.config "project path must be within the code root"),
     [], [], w.latest0⟩
  | some rel =>
  let target_dir := project_path.join "target"
  let step1 := ensure_dir_exists w.fs0 target_dir
  match step1.2 with
  | .err e => ⟨.err e, [], [], w.latest0⟩
  | .ok () =>
  let output_dir := target_dir.join "aws-build"
  let step2 := ensure_dir_exists step1.1 output_dir
  match step2.2 with
  | .err e => ⟨.err e, [], [], w.latest0⟩
  | .ok () =>
  let bc := build_container b w ⟨rel⟩
  match bc.1 with
  | .err e => ⟨.err e, bc.2, [], w.latest0⟩
  | .ok tag =>
  let evsM := bc.2 ++ [.cargoMetadata project_path]
  match w.metadata with
  | none => ⟨.err (.external "cargo metadata failed"), evsM, [], w.latest0⟩
  | some binaries =>
  let binRes : Res BuildErr String :=
    match b.bin with
    | some bin => .ok bin
    | none =>
      if binaries.length = 1 then .ok (binaries.getD 0 "")
      else
        .err (.config "must specify bin target when package has more than one")
  match binRes with
  | .err e => ⟨.err e, evsM, [], w.latest0⟩
  | .ok bin =>
  let container : Container :=
    { mode := b.mode, bin := bin, launcher := b.launcher,
      output_dir := output_dir, image_tag := tag,
      relabel := b.relabel, code_root := code_root }
  let cr := container.run w step2.1
  match cr.2.2 with
  | .err e => ⟨.err e, evsM ++ cr.2.1, [], w.latest0⟩
  | .ok bin_path =>
  let fin := finishBuild b w target_dir output_dir bin bin_path
  ⟨fin.result, evsM ++ cr.2.1 ++ fin.events, fin.writes, fin.latest⟩

/-! ## Concrete fixtures for witnesses and counterexamples -/

/-- A filesystem on which every directory already exists. -/
def fsAllDirs : Fs :=
  { entries := fun _ => .dir, createAllowed := fun _ => true }

/-- A world in which every external collaborator succeeds. -/
def wGood : World :=
  { canon := fun p => some p,
    fs0 := fsAllDirs,
    imageBuildOk := true,
    metadata := some ["app"],
    containerRunOk := true,
    chownOk := fun _ => true,
    stripOk := true,
    rawContents := some (strBytes "testcontents"),
    strippedContents := some (strBytes "stripped"),
    today := ⟨2020, 8, 31⟩,
    copyOk := true,
    zipOk := true,
    latest0 := none,
    removeOk := true,
    symlinkOk := true }

/-- A Lambda-mode request on a single-binary project inside the code root. -/
def bGood : Builder :=
  { rust_version := "stable", mode := .Lambda, bin := none, strip := false,
    launcher := ⟨false⟩, code_root := pstr "root",
    project_path := ⟨[.utf8 "root", .utf8 "proj"]⟩,
    packages := [], relabel := none }

/-- A filesystem on which every path holds a plain file. -/
def fsAllFiles : Fs :=
  { entries := fun _ => .file, createAllowed := fun _ => true }

/-- A world whose project has two binary targets. -/
def wMulti : World := { wGood with metadata := some ["alpha", "beta"] }

/-- A request whose project path lies outside the code root. -/
def bOutside : Builder := { bGood with project_path := pstr "elsewhere" }

/-- A container configuration using the rootless (podman) launcher. -/
def cPodman : Container :=
  { mode := .AmazonLinux2, bin := "app", launcher := ⟨true⟩,
    output_dir := pstr "out", image_tag := "tag", relabel := none,
    code_root := pstr "root" }

/-- A path with a component that is not valid UTF-8. -/
def badPath : Path := ⟨[.raw [255]]⟩

/-- A world whose strip command fails. -/
def wStripFail : World := { wGood with stripOk := false }

/-- A world whose symlink creation fails. -/
def wNoSymlink : World := { wGood with symlinkOk := false }

/-- A world whose latest slot is already occupied by an old symlink. -/
def wOccupied : World :=
  { wGood with latest0 := some (.symlinkTo (pstr "old")) }

/-- Is a result a success? -/
def Res.isOk : Res ε α → Bool
  | .ok _ => true
  | .err _ => false

/-! ## Theorems -/

set_option maxRecDepth 100000 in
/-- C1: the unique artifact name is
`<mode>-<name>-<YYYYMMDD>-<16 hex chars>` with the hex part the first 16
hex characters of the SHA-256 digest of the full contents; for binary name
"testexecutable", contents "testcontents" and date 2020-08-31 the
orchestrator-level lambda name is exactly
"lambda-testexecutable-20200831-7097a82a108e78da", and the FunctionTarget
packager's zip name is "testexecutable-20200831-7097a82a108e78da.zip". -/
theorem C1_unique_artifact_name :
    (∀ (mode : BuildMode) (name : String) (contents : List Nat) (when : Date),
      make_unique_name mode name contents when =
        mode.name ++ "-" ++ name ++ "-" ++ toString when.year
          ++ pad2 when.month ++ pad2 when.day ++ "-"
          ++ hexTrunc 16 (Sha256.digest contents)) ∧
    make_unique_name .Lambda "testexecutable" (strBytes "testcontents")
        ⟨2020, 8, 31⟩ = "lambda-testexecutable-20200831-7097a82a108e78da" ∧
    make_zip_name "testexecutable" (strBytes "testcontents") ⟨2020, 8, 31⟩ =
      "testexecutable-20200831-7097a82a108e78da.zip" :=
  ⟨fun _ _ _ _ => rfl, by decide, by decide⟩

/-- C10: parsing a build-mode token is the exact inverse of the mode-name
mapping: `m.name()` parses back to `m` for both modes, a successful parse
only ever returns the token's mode, and every other string fails with an
error naming the invalid mode. -/
theorem C10_mode_token_roundtrip :
    (∀ m : BuildMode, BuildMode.from_str m.name = .ok m) ∧
    (∀ s m, BuildMode.from_str s = .ok m → s = m.name) ∧
    (∀ s, s ≠ "al2" → s ≠ "lambda" →
      BuildMode.from_str s = .err ("invalid mode " ++ s)) := by
  refine ⟨fun m => by cases m <;> decide, fun s m h => ?_, fun s h1 h2 => ?_⟩
  · simp only [BuildMode.from_str] at h
    split_ifs at h with ha hb
    · cases h; cases ha; rfl
    · cases h; cases hb; rfl
  · simp [BuildMode.from_str, h1, h2]

/-- C10 witness: concrete instances of the round-trip. -/
theorem C10_mode_token_roundtrip_witness :
    BuildMode.from_str "lambda" = .ok .Lambda ∧
    BuildMode.from_str "xyz" = .err ("invalid mode " ++ "xyz") :=
  ⟨C10_mode_token_roundtrip.1 .Lambda,
   C10_mode_token_roundtrip.2.2 "xyz" (by decide) (by decide)⟩

/-- C8: `ensure_dir_exists` succeeds exactly when the path is a directory
after the creation attempt; an already-existing directory is a success
that changes nothing; a path occupied by a non-directory or a denied
creation is a hard error whose message contains the path. -/
theorem C8_ensure_dir_exists :
    (∀ fs p, (ensure_dir_exists fs p).2 = .ok () ↔
      (ensure_dir_exists fs p).1.is_dir p = true) ∧
    (∀ fs p, fs.entries p = .dir → ensure_dir_exists fs p = (fs, .ok ())) ∧
    (∀ fs p, fs.entries p = .file →
      (ensure_dir_exists fs p).2 =
        .err (.fsErr ("failed to create directory " ++ p.display))) ∧
    (∀ fs p, fs.entries p = .absent → fs.createAllowed p = false →
      (ensure_dir_exists fs p).2 =
        .err (.fsErr ("failed to create directory " ++ p.display))) ∧
    (∀ fs p, fs.entries p = .absent → fs.createAllowed p = true →
      (ensure_dir_exists fs p).2 = .ok ()) := by
  refine ⟨fun fs p => ?_, fun fs p h => ?_, fun fs p h => ?_,
    fun fs p h hc => ?_, fun fs p h hc => ?_⟩
  · unfold ensure_dir_exists
    by_cases hd : ((fs.create_dir p).1.is_dir p) = true <;> simp [hd]
  · simp [ensure_dir_exists, Fs.create_dir, Fs.is_dir, h]
  · simp [ensure_dir_exists, Fs.create_dir, Fs.is_dir, h]
  · simp [ensure_dir_exists, Fs.create_dir, Fs.is_dir, h, hc]
  · simp [ensure_dir_exists, Fs.create_dir, Fs.is_dir, h, hc]

/-- C8 witness: on an existing directory the call succeeds unchanged; on a
path occupied by a file it fails with the path in the message. -/
theorem C8_ensure_dir_exists_witness :
    ensure_dir_exists fsAllDirs (pstr "a") = (fsAllDirs, .ok ()) ∧
    (ensure_dir_exists fsAllFiles (pstr "a")).2 =
      .err (.fsErr ("failed to create directory " ++ (pstr "a").display)) :=
  ⟨C8_ensure_dir_exists.2.1 fsAllDirs (pstr "a") rfl,
   C8_ensure_dir_exists.2.2.1 fsAllFiles (pstr "a") rfl⟩

/-- C9: the image tag is a deterministic function of mode and toolchain
version only; the image build is invoked once with `FROM_IMAGE` selected
solely from the mode; a non-UTF-8 relative project path is a configuration
error with zero build invocations (hence no retry). -/
theorem C9_image_build (b b2 : Builder) (w : World) (rel : Path)
    (relStr : String) :
    (b.mode = b2.mode → b.rust_version = b2.rust_version →
      image_tag b = image_tag b2) ∧
    (rel.render = some relStr →
      (build_container b w rel).2 = [.imageBuild (buildOptOf b relStr)] ∧
      (buildOptOf b relStr).build_args =
        [("FROM_IMAGE", baseImage b.mode),
         ("RUST_VERSION", b.rust_version),
         ("DEV_PKGS", String.intercalate " " b.packages),
         ("PROJECT_PATH", relStr)] ∧
      (buildOptOf b relStr).tag = some (image_tag b)) ∧
    (rel.render = some relStr → w.imageBuildOk = true →
      (build_container b w rel).1 = .ok (image_tag b)) ∧
    (rel.render = none →
      build_container b w rel =
        (.err (.config "project path is not utf-8"), [])) := by
  refine ⟨fun h1 h2 => ?_, fun h => ?_, fun h hok => ?_, fun h => ?_⟩
  · simp [image_tag, h1, h2]
  · refine ⟨?_, rfl, rfl⟩
    unfold build_container
    rw [h]
  · unfold build_container
    rw [h]
    simp [hok]
  · unfold build_container
    rw [h]

/-- C9 witness: equal-tag, invocation shape, and the non-UTF-8 failure at
concrete inputs. -/
theorem C9_image_build_witness :
    image_tag bGood = image_tag bOutside ∧
    (build_container bGood wGood (pstr "proj")).2 =
      [.imageBuild (buildOptOf bGood "proj")] ∧
    (build_container bGood wGood (pstr "proj")).1 =
      .ok (image_tag bGood) ∧
    build_container bGood wGood badPath =
      (.err (.config "project path is not utf-8"), []) :=
  ⟨(C9_image_build bGood bOutside wGood (pstr "proj") "proj").1 rfl rfl,
   ((C9_image_build bGood bOutside wGood (pstr "proj") "proj").2.1
     (by decide)).1,
   (C9_image_build bGood bOutside wGood (pstr "proj") "proj").2.2.1
     (by decide) rfl,
   (C9_image_build bGood bOutside wGood badPath "proj").2.2.2 (by decide)⟩

/-- C4: the re-own-back action runs exactly once per acquire: an explicit
release performs it and marks the handle done; release on a done handle
performs nothing; drop after a completed release performs nothing; drop
without an explicit release performs it once, swallowing any error of that
automatic path; and over a whole `Container::run` with a rootless launcher
the re-own back to the host user happens exactly once whether the
container run succeeded or failed. -/
theorem C4_release_exactly_once (u : UserAndGroup) (d : Path)
    (c : Container) (w : World) (fs : Fs) :
    (w.chownOk u = true →
      (ResetPodmanPermissions.new u d).reset_permissions w =
        (⟨u, d, true⟩, .ok (), [.chown u d])) ∧
    ((ResetPodmanPermissions.mk u d true).reset_permissions w =
      (⟨u, d, true⟩, .ok (), [])) ∧
    ((ResetPodmanPermissions.mk u d true).drop w = []) ∧
    ((ResetPodmanPermissions.new u d).drop w = [.chown u d]) ∧
    (c.launcher.is_podman = true →
      w.chownOk .current = true → w.chownOk .root = true →
      (ensure_dir_exists fs
        (c.output_dir.join (c.mode.name ++ "-cargo-registry"))).2 = .ok () →
      (ensure_dir_exists
        (ensure_dir_exists fs
          (c.output_dir.join (c.mode.name ++ "-cargo-registry"))).1
        (c.output_dir.join (c.mode.name ++ "-cargo-git"))).2 = .ok () →
      (Container.run c w fs).2.1.countP (Event.isChownOf .root) = 1) := by
  refine ⟨fun h => ?_, ?_, ?_, ?_, fun hp hcur hroot h1 h2 => ?_⟩
  · simp [ResetPodmanPermissions.new, ResetPodmanPermissions.reset_permissions,
      set_podman_permissions, h]
  · rfl
  · rfl
  · cases h : w.chownOk u <;>
      simp [ResetPodmanPermissions.new, ResetPodmanPermissions.drop,
        ResetPodmanPermissions.reset_permissions, set_podman_permissions, h]
  · cases hrun : w.containerRunOk <;>
      simp only [Container.run, h1, h2, hp, hrun, hcur, hroot,
        set_podman_permissions, ResetPodmanPermissions.drop,
        ResetPodmanPermissions.reset_permissions, ResetPodmanPermissions.new,
        Bool.false_eq_true, if_false, if_true] <;>
      rfl

/-- C4 witness: release-then-drop and run-level exactly-once counts at
concrete inputs. -/
theorem C4_release_exactly_once_witness :
    (ResetPodmanPermissions.new .root (pstr "out")).reset_permissions wGood =
      (⟨.root, pstr "out", true⟩, .ok (), [.chown .root (pstr "out")]) ∧
    (Container.run cPodman wGood fsAllDirs).2.1.countP
      (Event.isChownOf .root) = 1 :=
  ⟨(C4_release_exactly_once .root (pstr "out") cPodman wGood fsAllDirs).1 rfl,
   (C4_release_exactly_once .root (pstr "out") cPodman wGood
     fsAllDirs).2.2.2.2 rfl rfl rfl (by decide) (by decide)⟩

/-- C7: the container run is invoked exactly once, with auto-remove, an
init process, the invoking user's identity, and exactly four volume mounts
(code root read-only, registry cache read-write, git cache read-write,
output directory read-write), each carrying option "z" under the shared
relabel policy, "Z" under the unshared policy, and nothing otherwise. -/
theorem C7_container_run_invocation (c : Container) (w : World) (fs : Fs)
    (hch : c.launcher.is_podman = true → w.chownOk .current = true)
    (h1 : (ensure_dir_exists fs
      (c.output_dir.join (c.mode.name ++ "-cargo-registry"))).2 = .ok ())
    (h2 : (ensure_dir_exists
      (ensure_dir_exists fs
        (c.output_dir.join (c.mode.name ++ "-cargo-registry"))).1
      (c.output_dir.join (c.mode.name ++ "-cargo-git"))).2 = .ok ()) :
    ((Container.run c w fs).2.1.filter Event.isContainerRun =
      [.containerRun (runOptOf c
        (c.output_dir.join (c.mode.name ++ "-cargo-registry"))
        (c.output_dir.join (c.mode.name ++ "-cargo-git")))]) ∧
    (∀ rdir gdir,
      (runOptOf c rdir gdir).remove = true ∧
      (runOptOf c rdir gdir).init = true ∧
      (runOptOf c rdir gdir).user = some .current ∧
      (runOptOf c rdir gdir).volumes =
        [⟨c.code_root, pstr "/code", false, mount_options c.relabel⟩,
         ⟨rdir, pstr "/cargo/registry", true, mount_options c.relabel⟩,
         ⟨gdir, pstr "/cargo/git", true, mount_options c.relabel⟩,
         ⟨c.output_dir, pstr "/code/target", true,
           mount_options c.relabel⟩]) ∧
    mount_options (some .Shared) = ["z"] ∧
    mount_options (some .Unshared) = ["Z"] ∧
    mount_options none = [] := by
  refine ⟨?_, fun rdir gdir => ⟨rfl, rfl, rfl, rfl⟩, rfl, rfl, rfl⟩
  cases hp : c.launcher.is_podman
  · cases hrun : w.containerRunOk <;>
      simp only [Container.run, h1, h2, hp, hrun,
        Bool.false_eq_true, if_false, if_true] <;>
      rfl
  · have hcur := hch hp
    cases hrun : w.containerRunOk <;>
      cases hr : w.chownOk .root <;>
      simp only [Container.run, h1, h2, hp, hrun, hr, hcur,
        set_podman_permissions, ResetPodmanPermissions.drop,
        ResetPodmanPermissions.reset_permissions, ResetPodmanPermissions.new,
        Bool.false_eq_true, if_false, if_true] <;>
      rfl

/-- C7 witness: the invocation equation at a concrete rootless container. -/
theorem C7_container_run_invocation_witness :
    (Container.run cPodman wGood fsAllDirs).2.1.filter Event.isContainerRun =
      [.containerRun (runOptOf cPodman
        ((pstr "out").join "al2-cargo-registry")
        ((pstr "out").join "al2-cargo-git"))] :=
  (C7_container_run_invocation cPodman wGood fsAllDirs (fun _ => rfl)
    (by decide) (by decide)).1

/-- Helper: the image-build step never invokes a container run. -/
theorem build_container_countP_containerRun (b : Builder) (w : World)
    (rel : Path) :
    (build_container b w rel).2.countP Event.isContainerRun = 0 := by
  cases h : rel.render <;> simp only [build_container, h] <;> rfl

/-- C2 counterexample: on a two-binary project with no explicit selection
the run does fail with the expected configuration error, but the container
image build has already been invoked by then, contradicting the claim that
the failure precedes any container work. -/
theorem C2_counterexample :
    (Builder.run bGood wMulti).result =
      .err (.config "must specify bin target when package has more than one") ∧
    (Builder.run bGood wMulti).events.any Event.isImageBuild = true := by
  decide

/-- C2 (amended): on a project with more than one binary target and no
explicit selection, the run fails with the ConfigurationError and the
container run is never invoked; the container image build (and the cargo
metadata query) have however already run by the time the ambiguity is
detected. -/
theorem C2_ambiguous_bin_target (b : Builder) (w : World) (cr pp : Path)
    (rel : List OsStr) (tag : String) (binaries : List String)
    (hcr : w.canon b.code_root = some cr)
    (hpp : w.canon b.project_path = some pp)
    (hrel : strip_pre cr.components pp.components = some rel)
    (hd1 : (ensure_dir_exists w.fs0 (pp.join "target")).2 = .ok ())
    (hd2 : (ensure_dir_exists (ensure_dir_exists w.fs0 (pp.join "target")).1
      ((pp.join "target").join "aws-build")).2 = .ok ())
    (hbc : (build_container b w ⟨rel⟩).1 = .ok tag)
    (hmeta : w.metadata = some binaries)
    (hbin : b.bin = none)
    (hlen : 1 < binaries.length) :
    (Builder.run b w).result =
      .err (.config "must specify bin target when package has more than one") ∧
    (Builder.run b w).events.countP Event.isContainerRun = 0 := by
  have hne : ¬ (binaries.length = 1) := by omega
  constructor
  · simp only [Builder.run, hcr, hpp, hrel, hd1, hd2, hbc, hmeta, hbin,
      if_neg hne]
  · simp only [Builder.run, hcr, hpp, hrel, hd1, hd2, hbc, hmeta, hbin,
      if_neg hne]
    simp [List.countP_append, build_container_countP_containerRun b w ⟨rel⟩,
      List.countP_cons, Event.isContainerRun]

/-- C2 witness: the amended behavior at the concrete two-binary project. -/
theorem C2_ambiguous_bin_target_witness :
    (Builder.run bGood wMulti).result =
      .err (.config "must specify bin target when package has more than one") ∧
    (Builder.run bGood wMulti).events.countP Event.isContainerRun = 0 :=
  C2_ambiguous_bin_target bGood wMulti (pstr "root")
    ⟨[.utf8 "root", .utf8 "proj"]⟩ [.utf8 "proj"] "aws-build-lambda-stable"
    ["alpha", "beta"] rfl rfl (by decide) (by decide) (by decide) (by decide)
    rfl rfl (by decide)

/-- C3: when the canonicalized project path is neither the canonicalized
code root nor a descendant of it, the run fails with the
ConfigurationError before any external process is invoked (empty trace, no
writes); when it lies inside the code root, the run proceeds into the
image build with the relative path obtained by stripping the code-root
prefix. -/
theorem C3_project_path_containment (b : Builder) (w : World) (cr pp : Path)
    (hcr : w.canon b.code_root = some cr)
    (hpp : w.canon b.project_path = some pp) :
    (strip_pre cr.components pp.components = none →
      (Builder.run b w).result =
        .err (.config "project path must be within the code root") ∧
      (Builder.run b w).events = [] ∧ (Builder.run b w).writes = []) ∧
    (∀ rel relStr,
      strip_pre cr.components pp.components = some rel →
      (ensure_dir_exists w.fs0 (pp.join "target")).2 = .ok () →
      (ensure_dir_exists (ensure_dir_exists w.fs0 (pp.join "target")).1
        ((pp.join "target").join "aws-build")).2 = .ok () →
      Path.render ⟨rel⟩ = some relStr →
      (Builder.run b w).events.head? =
        some (.imageBuild (buildOptOf b relStr))) := by
  constructor
  · intro h
    refine ⟨?_, ?_, ?_⟩ <;> simp only [Builder.run, hcr, hpp, h]
  · intro rel relStr hrel hd1 hd2 hrender
    simp only [Builder.run, hcr, hpp, hrel, hd1, hd2, build_container,
      hrender]
    cases himg : w.imageBuildOk
    · simp only [himg, Bool.false_eq_true, if_false]
      rfl
    · simp only [himg, if_true]
      repeat' split
      all_goals rfl

/-- C3 witness: the outside-root failure and the stripped relative path at
concrete requests. -/
theorem C3_project_path_containment_witness :
    (Builder.run bOutside wGood).result =
      .err (.config "project path must be within the code root") ∧
    (Builder.run bGood wGood).events.head? =
      some (.imageBuild (buildOptOf bGood "proj")) :=
  ⟨((C3_project_path_containment bOutside wGood (pstr "root")
      (pstr "elsewhere") rfl rfl).1 (by decide)).1,
   (C3_project_path_containment bGood wGood (pstr "root")
      ⟨[.utf8 "root", .utf8 "proj"]⟩ rfl rfl).2 [.utf8 "proj"] "proj"
      (by decide) (by decide) (by decide) (by decide)⟩

/-- C5: the packager branches on the build mode: for ServerTarget a failed
strip is a hard build failure with nothing written, and otherwise the
(possibly stripped) executable bytes are copied byte-for-byte to
`<output-dir>/al2/<UniqueArtifactName>` with no extension; for
FunctionTarget the bytes become the single zip entry "bootstrap" with Unix
permissions 0755 and deflate compression in
`<output-dir>/lambda/<UniqueArtifactName>.zip`, finalized. -/
theorem C5_artifact_packager (b : Builder) (w : World)
    (target_dir output_dir : Path) (bin : String) (bin_path : Path)
    (contents : List Nat) :
    (b.mode = .AmazonLinux2 → b.strip = true → w.stripOk = false →
      (finishBuild b w target_dir output_dir bin bin_path).result =
        .err (.external "strip failed") ∧
      (finishBuild b w target_dir output_dir bin bin_path).writes = []) ∧
    ((b.strip = true → w.stripOk = true) →
      (if b.strip then w.strippedContents else w.rawContents) =
        some contents →
      ((b.mode = .AmazonLinux2 → w.copyOk = true →
        (finishBuild b w target_dir output_dir bin bin_path).writes =
          [.copied bin_path
            ((output_dir.join "al2").join
              (make_unique_name .AmazonLinux2 bin contents w.today))
            contents]) ∧
       (b.mode = .Lambda → w.zipOk = true →
        (finishBuild b w target_dir output_dir bin bin_path).writes =
          [.zipped
            ((output_dir.join "lambda").join
              (make_unique_name .Lambda bin contents w.today ++ ".zip"))
            [⟨"bootstrap", 0o755, .deflated, contents⟩] true]))) := by
  constructor
  · intro _ hs hst
    constructor <;> simp only [finishBuild, hs, hst, Bool.false_eq_true,
      if_false, if_true]
  · intro hso hread
    constructor
    · intro hm hcp
      cases hs : b.strip <;> rw [hs] at hread hso <;>
        simp only [if_true, if_false, Bool.false_eq_true] at hread
      · simp only [finishBuild, hs, hread, hm, hcp, Bool.false_eq_true,
          if_false, if_true]
        simp [apply_ite Outcome.writes, BuildMode.name]
      · have hok := hso rfl
        simp only [finishBuild, hs, hok, hread, hm, hcp, if_true]
        simp [apply_ite Outcome.writes, BuildMode.name]
    · intro hm hz
      cases hs : b.strip <;> rw [hs] at hread hso <;>
        simp only [if_true, if_false, Bool.false_eq_true] at hread
      · simp only [finishBuild, hs, hread, hm, hz, Bool.false_eq_true,
          if_false, if_true]
        simp [apply_ite Outcome.writes, BuildMode.name]
      · have hok := hso rfl
        simp only [finishBuild, hs, hok, hread, hm, hz, if_true]
        simp [apply_ite Outcome.writes, BuildMode.name]

/-- C5 witness: strip failure, the ServerTarget copy and the FunctionTarget
zip at concrete inputs. -/
theorem C5_artifact_packager_witness :
    ((finishBuild { bGood with mode := .AmazonLinux2, strip := true }
        wStripFail (pstr "t") (pstr "o") "app" (pstr "bp")).result =
      .err (.external "strip failed")) ∧
    ((finishBuild { bGood with mode := .AmazonLinux2 } wGood (pstr "t")
        (pstr "o") "app" (pstr "bp")).writes =
      [.copied (pstr "bp")
        (((pstr "o").join "al2").join
          (make_unique_name .AmazonLinux2 "app" (strBytes "testcontents")
            wGood.today)) (strBytes "testcontents")]) ∧
    ((finishBuild bGood wGood (pstr "t") (pstr "o") "app"
        (pstr "bp")).writes =
      [.zipped (((pstr "o").join "lambda").join
          (make_unique_name .Lambda "app" (strBytes "testcontents")
            wGood.today ++ ".zip"))
        [⟨"bootstrap", 0o755, .deflated, strBytes "testcontents"⟩] true]) :=
  ⟨((C5_artifact_packager { bGood with mode := .AmazonLinux2, strip := true }
      wStripFail (pstr "t") (pstr "o") "app" (pstr "bp")
      (strBytes "testcontents")).1 rfl rfl rfl).1,
   ((C5_artifact_packager { bGood with mode := .AmazonLinux2 } wGood
      (pstr "t") (pstr "o") "app" (pstr "bp")
      (strBytes "testcontents")).2 (by decide) (by decide)).1 rfl rfl,
   ((C5_artifact_packager bGood wGood (pstr "t") (pstr "o") "app"
      (pstr "bp") (strBytes "testcontents")).2 (by decide) (by decide)).2
      rfl rfl⟩

set_option maxHeartbeats 2000000 in
/-- Helper: whenever the finishing stage reports success, the latest slot
holds a symlink to the artifact it returned. -/
theorem fin_ok_latest (b : Builder) (w : World)
    (target_dir output_dir : Path) (bin : String) (bin_path : Path)
    (out : BuilderOutput)
    (h : (finishBuild b w target_dir output_dir bin bin_path).result =
      .ok out) :
    (finishBuild b w target_dir output_dir bin bin_path).latest =
      some (.symlinkTo out.real) := by
  unfold finishBuild at h ⊢
  repeat' (split at h)
  all_goals (try (cases hsl : w.symlinkOk))
  all_goals simp_all
  all_goals (subst h; rfl)

set_option maxHeartbeats 2000000 in
/-- C6: the latest-pointer update ignores removal failure (including
non-existence) but treats symlink-creation failure as a hard build
failure; on every successful run the `latest-<mode>` slot resolves to
exactly the artifact just produced. -/
theorem C6_latest_pointer (b : Builder) (w : World)
    (target_dir output_dir : Path) (bin : String) (bin_path : Path)
    (out : BuilderOutput) (contents : List Nat) (s0 : SlotEntry) :
    ((Builder.run b w).result = .ok out →
      (Builder.run b w).latest = some (.symlinkTo out.real)) ∧
    ((b.strip = true → w.stripOk = true) →
      (if b.strip then w.strippedContents else w.rawContents) =
        some contents →
      w.copyOk = true → w.zipOk = true →
      ((w.latest0 = none → w.symlinkOk = false →
        (finishBuild b w target_dir output_dir bin bin_path).result =
          .err (.fsErr ("failed to create symlink "
            ++ (target_dir.join ("latest-" ++ b.mode.name)).display))) ∧
       (w.latest0 = none → w.symlinkOk = true →
        ((finishBuild b w target_dir output_dir bin
          bin_path).result).isOk = true) ∧
       (w.latest0 = some s0 → w.removeOk = true → w.symlinkOk = true →
        ((finishBuild b w target_dir output_dir bin
          bin_path).result).isOk = true))) := by
  constructor
  · intro h
    cases hcr : w.canon b.code_root with
    | none => simp [Builder.run, hcr] at h
    | some cr =>
      cases hpp : w.canon b.project_path with
      | none => simp [Builder.run, hcr, hpp] at h
      | some pp =>
        cases hrel : strip_pre cr.components pp.components with
        | none => simp [Builder.run, hcr, hpp, hrel] at h
        | some rel =>
          cases hd1 : (ensure_dir_exists w.fs0 (pp.join "target")).2 with
          | err e => simp [Builder.run, hcr, hpp, hrel, hd1] at h
          | ok u =>
            cases u
            cases hd2 : (ensure_dir_exists
                (ensure_dir_exists w.fs0 (pp.join "target")).1
                ((pp.join "target").join "aws-build")).2 with
            | err e => simp [Builder.run, hcr, hpp, hrel, hd1, hd2] at h
            | ok u2 =>
              cases u2
              simp only [Builder.run, hcr, hpp, hrel, hd1, hd2] at h ⊢
              repeat' (split at h)
              all_goals simp_all
              all_goals (exact fin_ok_latest _ _ _ _ _ _ _ h)
  · intro hso hread hcp hz
    refine ⟨fun h0 hsl => ?_, fun h0 hsl => ?_, fun h0 hro hsl => ?_⟩
    · cases hs : b.strip <;> rw [hs] at hread hso <;>
        simp only [if_true, if_false, Bool.false_eq_true] at hread
      · cases hm : b.mode <;>
          simp [finishBuild, hs, hread, hm, hcp, hz, h0, hsl, Res.isOk]
      · have hok := hso rfl
        cases hm : b.mode <;>
          simp [finishBuild, hs, hok, hread, hm, hcp, hz, h0, hsl,
            Res.isOk]
    · cases hs : b.strip <;> rw [hs] at hread hso <;>
        simp only [if_true, if_false, Bool.false_eq_true] at hread
      · cases hm : b.mode <;>
          simp [finishBuild, hs, hread, hm, hcp, hz, h0, hsl, Res.isOk]
      · have hok := hso rfl
        cases hm : b.mode <;>
          simp [finishBuild, hs, hok, hread, hm, hcp, hz, h0, hsl,
            Res.isOk]
    · cases hs : b.strip <;> rw [hs] at hread hso <;>
        simp only [if_true, if_false, Bool.false_eq_true] at hread
      · cases hm : b.mode <;>
          simp [finishBuild, hs, hread, hm, hcp, hz, h0, hro, hsl,
            Res.isOk]
      · have hok := hso rfl
        cases hm : b.mode <;>
          simp [finishBuild, hs, hok, hread, hm, hcp, hz, h0, hro, hsl,
            Res.isOk]

set_option maxRecDepth 100000 in
/-- C6 witness: pointer correctness on a successful concrete run, the
hard failure when symlink creation fails, and success with an occupied
slot whose removal succeeds. -/
theorem C6_latest_pointer_witness :
    (Builder.run bGood wGood).latest = some (.symlinkTo
      ⟨[.utf8 "root", .utf8 "proj", .utf8 "target", .utf8 "aws-build",
        .utf8 "lambda",
        .utf8 "lambda-app-20200831-7097a82a108e78da.zip"]⟩) ∧
    (finishBuild bGood wNoSymlink (pstr "t") (pstr "o") "app"
        (pstr "bp")).result =
      .err (.fsErr ("failed to create symlink "
        ++ ((pstr "t").join ("latest-" ++ bGood.mode.name)).display)) ∧
    ((finishBuild bGood wOccupied (pstr "t") (pstr "o") "app"
        (pstr "bp")).result).isOk = true :=
  ⟨(C6_latest_pointer bGood wGood (pstr "t") (pstr "o") "app" (pstr "bp")
      ⟨⟨[.utf8 "root", .utf8 "proj", .utf8 "target", .utf8 "aws-build",
        .utf8 "lambda",
        .utf8 "lambda-app-20200831-7097a82a108e78da.zip"]⟩,
       ⟨[.utf8 "root", .utf8 "proj", .utf8 "target",
        .utf8 "latest-lambda"]⟩⟩
      (strBytes "testcontents") .otherFile).1 (by decide),
   ((C6_latest_pointer bGood wNoSymlink (pstr "t") (pstr "o") "app"
      (pstr "bp") ⟨pstr "x", pstr "y"⟩ (strBytes "testcontents")
      .otherFile).2 (by decide) (by decide) rfl rfl).1 rfl rfl,
   ((C6_latest_pointer bGood wOccupied (pstr "t") (pstr "o") "app"
      (pstr "bp") ⟨pstr "x", pstr "y"⟩ (strBytes "testcontents")
      (.symlinkTo (pstr "old"))).2 (by decide) (by decide) rfl
      rfl).2.2 rfl rfl rfl⟩

end AwsBuild
